import Mathlib

/-!
Shallow embedding of the StockAnalyzer-Pro agentic trading system core:
the portfolio ledger (`src/agentic_trading_system/portfolio_manager.py`),
its configuration constants (`config.py`), and the decision-combination logic of the main agent (`main_agent.py`).

Modelling conventions:
  * Python floats are modelled as exact rationals (`ℚ`); the claims under
    study are about exact arithmetic.
  * Python `dict` (insertion ordered, unique keys) is modelled as an
    association list `List (String × Holding)` with first-match lookup,
    in-place first-match update, and first-match erase.
  * Python `int(x)` on a float truncates toward zero: `pyInt`.
  * Python truthiness of `Optional` numeric fields (`if request.percentage:`)
    is `some v` with `v ≠ 0`.
  * A Python `ZeroDivisionError` (an uncaught fault, distinct from the
    `(False, message)` business-failure results) is modelled with `Option`:
    `none` is a fault, `some r` a normal return.
  * Messages returned by the Python code are formatted strings; they are
    modelled by the inductive `Msg`, one constructor per distinct return
    site / message template.
-/

namespace StockAnalyzer

/-- Python `int(x)` applied to a float: truncation toward zero. -/
def pyInt (q : ℚ) : Int := if q < 0 then -(Int.floor (-q)) else Int.floor q

/-- `models.ActionType` -/
inductive ActionType
  | BUY | SELL | HOLD | ANALYZE | GET_DATA
deriving DecidableEq, Repr

/-- `models.DecisionType` -/
inductive DecisionType
  | STRONG_BUY | BUY | HOLD | SELL | STRONG_SELL
deriving DecidableEq, Repr

/-- `models.RiskLevel` -/
inductive RiskLevel
  | VERY_LOW | LOW | MEDIUM | HIGH | VERY_HIGH
deriving DecidableEq, Repr

/-- The distinct result messages produced by the operations of `PortfolioManager`, one constructor per return site in the Python source
(the formatted numeric parts of the strings are dropped). -/
inductive Msg
  | invalidActionBuy        -- "Invalid action for buy execution"
  | invalidPriceBuy         -- "Invalid price for buy order"
  | invalidActionSell       -- "Invalid action for sell execution"
  | invalidPriceSell        -- "Invalid price for sell order"
  | mustSpecifyQuantityOrPercentage  -- "Must specify either quantity or percentage"
  | insufficientCash        -- "Insufficient cash. Need ..., have ..."
  | positionTooLarge        -- "Position too large. ...% exceeds ...% limit"
  | positionTooSmall        -- "Position too small. ...% below ...% minimum"
  | noHoldings              -- "No holdings in ..."
  | insufficientHoldings    -- "Insufficient holdings. Need ..., have ..."
  | ok                      -- "OK"
  | buySuccess              -- "Successfully bought ..."
  | sellSuccess             -- "Successfully sold ..."
deriving DecidableEq, Repr

/- `config.TradingConfig` constants used by the ledger and aggregator. -/
namespace TradingConfig

def INITIAL_BUDGET : ℚ := 100000
def MAX_POSITION_SIZE : ℚ := 3/10
def MIN_POSITION_SIZE : ℚ := 1/20
def BUY_CONFIDENCE_THRESHOLD : ℚ := 70
def SELL_CONFIDENCE_THRESHOLD : ℚ := 60
def STOP_LOSS_PERCENTAGE : ℚ := 1/20
def TAKE_PROFIT_PERCENTAGE : ℚ := 3/20

end TradingConfig

/-- `models.TradeRequest` (the fields read by the ledger). -/
structure TradeRequest where
  action : ActionType
  symbol : String
  quantity : Option Int := none
  percentage : Option ℚ := none
  price : Option ℚ := none
deriving DecidableEq, Repr

/-- `models.Holding` -/
structure Holding where
  symbol : String
  quantity : Int
  avg_price : ℚ
  current_price : ℚ
  current_value : ℚ
  unrealized_pnl : ℚ
  unrealized_pnl_percentage : ℚ
  percentage_of_portfolio : ℚ
deriving DecidableEq, Repr

/-- The per-holding dictionary built by `get_portfolio_state`
(`Holding` minus the redundant `symbol`). -/
structure HoldingView where
  quantity : Int
  avg_price : ℚ
  current_price : ℚ
  current_value : ℚ
  unrealized_pnl : ℚ
  unrealized_pnl_percentage : ℚ
  percentage_of_portfolio : ℚ
deriving DecidableEq, Repr

def Holding.view (h : Holding) : HoldingView :=
  ⟨h.quantity, h.avg_price, h.current_price, h.current_value,
   h.unrealized_pnl, h.unrealized_pnl_percentage, h.percentage_of_portfolio⟩

/-- `models.PortfolioState` -/
structure PortfolioState where
  total_budget : ℚ
  available_cash : ℚ
  total_value : ℚ
  holdings : List (String × HoldingView)
  total_pnl : ℚ
  total_pnl_percentage : ℚ
deriving DecidableEq, Repr

/-- The mutable fields of `portfolio_manager.PortfolioManager`. -/
structure PortfolioManager where
  initial_budget : ℚ
  available_cash : ℚ
  holdings : List (String × Holding)
  trade_history : List TradeRequest
  total_pnl : ℚ
  total_pnl_percentage : ℚ
deriving DecidableEq, Repr

/-- First-match lookup in the holdings dictionary (`self.holdings[symbol]`,
`symbol in self.holdings`). -/
def lookupH : List (String × Holding) → String → Option Holding
  | [], _ => none
  | (k, h) :: rest, sym => if k = sym then some h else lookupH rest sym

/-- In-place update of the (unique) entry for a key
(Python mutates the `Holding` object stored in the dict). -/
def updateH : List (String × Holding) → String → Holding → List (String × Holding)
  | [], _, _ => []
  | (k, h) :: rest, sym, h' =>
      if k = sym then (k, h') :: rest else (k, h) :: updateH rest sym h'

/-- `del self.holdings[symbol]` -/
def eraseH : List (String × Holding) → String → List (String × Holding)
  | [], _ => []
  | (k, h) :: rest, sym => if k = sym then rest else (k, h) :: eraseH rest sym

namespace PortfolioManager

/-- `PortfolioManager.__init__(initial_budget)` -/
def mkNew (initial_budget : ℚ) : PortfolioManager :=
  { initial_budget := initial_budget
    available_cash := initial_budget
    holdings := []
    trade_history := []
    total_pnl := 0
    total_pnl_percentage := 0 }

/-- `PortfolioManager.get_portfolio_state`.  Returns the `PortfolioState`
together with the manager after the call: the method writes the field
`self.total_pnl_percentage` whenever `initial_budget - available_cash > 0`. -/
def get_portfolio_state (s : PortfolioManager) : PortfolioState × PortfolioManager :=
  let total_value := s.available_cash + (s.holdings.map (fun kh => kh.2.current_value)).sum
  let holdings_dict := s.holdings.map (fun kh => (kh.1, kh.2.view))
  let total_invested := s.initial_budget - s.available_cash
  let pct := if 0 < total_invested then s.total_pnl / total_invested * 100
             else s.total_pnl_percentage
  (⟨s.initial_budget, s.available_cash, total_value, holdings_dict, s.total_pnl, pct⟩,
   { s with total_pnl_percentage := pct })

/-- `PortfolioManager.update_holding_price`.  Note: the Python method
performs no validation of `current_price` whatsoever and returns `None`;
it is a silent no-op when the symbol is not held. -/
def update_holding_price (s : PortfolioManager) (symbol : String) (current_price : ℚ) :
    PortfolioManager :=
  match lookupH s.holdings symbol with
  | none => s
  | some holding =>
    let current_value := (holding.quantity : ℚ) * current_price
    let unrealized_pnl := current_value - (holding.quantity : ℚ) * holding.avg_price
    let h1 : Holding :=
      { holding with
        current_price := current_price
        current_value := current_value
        unrealized_pnl := unrealized_pnl
        unrealized_pnl_percentage :=
          if 0 < (holding.quantity : ℚ) * holding.avg_price then
            unrealized_pnl / ((holding.quantity : ℚ) * holding.avg_price) * 100
          else holding.unrealized_pnl_percentage }
    let s1 : PortfolioManager := { s with holdings := updateH s.holdings symbol h1 }
    let ps := s1.get_portfolio_state
    let h2 : Holding :=
      if 0 < ps.1.total_value then
        { h1 with percentage_of_portfolio := current_value / ps.1.total_value * 100 }
      else h1
    { ps.2 with holdings := updateH ps.2.holdings symbol h2 }

/-- `PortfolioManager.can_buy`.  A `none` result is the
`ZeroDivisionError` raised when the projected `total_value` is exactly 0. -/
def can_buy (s : PortfolioManager) (symbol : String) (quantity : Int) (price : ℚ) :
    Option (Bool × Msg × PortfolioManager) :=
  let total_cost : ℚ := (quantity : ℚ) * price
  if s.available_cash < total_cost then some (false, Msg.insufficientCash, s)
  else
    let ps := s.get_portfolio_state
    if ps.1.total_value = 0 then none
    else
      let position_percentage := total_cost / ps.1.total_value * 100
      if TradingConfig.MAX_POSITION_SIZE * 100 < position_percentage then
        some (false, Msg.positionTooLarge, ps.2)
      else if position_percentage < TradingConfig.MIN_POSITION_SIZE * 100 then
        some (false, Msg.positionTooSmall, ps.2)
      else some (true, Msg.ok, ps.2)

/-- `PortfolioManager.can_sell`.  Pure: reads only `holdings`. -/
def can_sell (s : PortfolioManager) (symbol : String) (quantity : Int) : Bool × Msg :=
  match lookupH s.holdings symbol with
  | none => (false, Msg.noHoldings)
  | some holding =>
    if holding.quantity < quantity then (false, Msg.insufficientHoldings)
    else (true, Msg.ok)

/-- `PortfolioManager._update_portfolio_percentages` -/
def update_portfolio_percentages (s : PortfolioManager) : PortfolioManager :=
  let ps := s.get_portfolio_state
  if 0 < ps.1.total_value then
    { ps.2 with holdings := ps.2.holdings.map (fun kh =>
        (kh.1, { kh.2 with
          percentage_of_portfolio := kh.2.current_value / ps.1.total_value * 100 })) }
  else ps.2

/-- The `elif trade_request.quantity: ... else: return False, "Must specify..."`
fallback shared by `execute_buy` and `execute_sell`: an explicit quantity is
used only when present and truthy (nonzero). -/
def explicitQuantity (o : TradeRequest) : Option Int :=
  match o.quantity with
  | some q => if q ≠ 0 then some q else none
  | none => none

/-- Quantity resolution of `execute_buy`: a truthy (nonzero) `percentage`
takes precedence and buys `int(available_cash * percentage/100 / price)`
shares; otherwise a truthy explicit `quantity` is used. -/
def resolve_buy_quantity (s : PortfolioManager) (o : TradeRequest) (price : ℚ) : Option Int :=
  match o.percentage with
  | some pc =>
    if pc ≠ 0 then
      let amount_to_spend := s.available_cash * (pc / 100)
      some (pyInt (amount_to_spend / price))
    else explicitQuantity o
  | none => explicitQuantity o

/-- The holdings mutation of a successful `execute_buy` (add to an existing
holding, recomputing the weighted-average cost, or create a new one).
`none` is the `ZeroDivisionError` raised when the quantity of an existing holding plus the bought quantity is exactly 0. -/
def buy_update_holdings (s : PortfolioManager) (symbol : String) (quantity : Int)
    (price : ℚ) : Option PortfolioManager :=
  match lookupH s.holdings symbol with
  | some holding =>
    let total_quantity := holding.quantity + quantity
    if total_quantity = 0 then none
    else
      let total_cost_basis :=
        (holding.quantity : ℚ) * holding.avg_price + (quantity : ℚ) * price
      let h' : Holding :=
        { holding with
          avg_price := total_cost_basis / (total_quantity : ℚ)
          quantity := total_quantity
          current_price := price
          current_value := (total_quantity : ℚ) * price }
      some { s with holdings := updateH s.holdings symbol h' }
  | none =>
    some { s with holdings := s.holdings ++
      [(symbol, ⟨symbol, quantity, price, price, (quantity : ℚ) * price, 0, 0, 0⟩)] }

/-- `PortfolioManager.execute_buy`.  `none` models an uncaught
`ZeroDivisionError`; `some (ok, msg, s')` models `return ok, msg` with
`s'` the state of the manager after the call. -/
def execute_buy (s : PortfolioManager) (o : TradeRequest) :
    Option (Bool × Msg × PortfolioManager) :=
  if o.action ≠ ActionType.BUY then some (false, Msg.invalidActionBuy, s)
  else
    let price := o.price.getD 0
    if price ≤ 0 then some (false, Msg.invalidPriceBuy, s)
    else
      match s.resolve_buy_quantity o price with
      | none => some (false, Msg.mustSpecifyQuantityOrPercentage, s)
      | some quantity =>
        match s.can_buy o.symbol quantity price with
        | none => none
        | some (ok, msg, s1) =>
          if ok = false then some (false, msg, s1)
          else
            let total_cost := (quantity : ℚ) * price
            let s2 : PortfolioManager :=
              { s1 with available_cash := s1.available_cash - total_cost }
            match buy_update_holdings s2 o.symbol quantity price with
            | none => none
            | some s3 =>
              let s4 := s3.update_portfolio_percentages
              some (true, Msg.buySuccess,
                    { s4 with trade_history := s4.trade_history ++ [o] })

/-- Quantity resolution of `execute_sell`: a truthy (nonzero) `percentage`
takes precedence and sells `int(holding.quantity * percentage/100)` shares;
otherwise a truthy explicit `quantity` is used. -/
def resolve_sell_quantity (holding : Holding) (o : TradeRequest) : Option Int :=
  match o.percentage with
  | some pc =>
    if pc ≠ 0 then some (pyInt ((holding.quantity : ℚ) * (pc / 100)))
    else explicitQuantity o
  | none => explicitQuantity o

/-- `PortfolioManager.execute_sell`.  Returns `(ok, msg, state after the call)`;
no code path of the Python method can raise, so no `Option` layer is needed. -/
def execute_sell (s : PortfolioManager) (o : TradeRequest) :
    Bool × Msg × PortfolioManager :=
  if o.action ≠ ActionType.SELL then (false, Msg.invalidActionSell, s)
  else
    let price := o.price.getD 0
    if price ≤ 0 then (false, Msg.invalidPriceSell, s)
    else
      match lookupH s.holdings o.symbol with
      | none => (false, Msg.noHoldings, s)
      | some holding =>
        match resolve_sell_quantity holding o with
        | none => (false, Msg.mustSpecifyQuantityOrPercentage, s)
        | some quantity =>
          let cs := s.can_sell o.symbol quantity
          if cs.1 = false then (false, cs.2, s)
          else
            let total_proceeds := (quantity : ℚ) * price
            let cost_basis := (quantity : ℚ) * holding.avg_price
            let realized_pnl := total_proceeds - cost_basis
            let s1 : PortfolioManager :=
              { s with available_cash := s.available_cash + total_proceeds
                       total_pnl := s.total_pnl + realized_pnl }
            let new_quantity := holding.quantity - quantity
            let s2 : PortfolioManager :=
              if new_quantity = 0 then
                { s1 with holdings := eraseH s1.holdings o.symbol }
              else
                let current_value := (new_quantity : ℚ) * price
                let unrealized_pnl :=
                  current_value - (new_quantity : ℚ) * holding.avg_price
                let h' : Holding :=
                  { holding with
                    quantity := new_quantity
                    current_value := current_value
                    unrealized_pnl := unrealized_pnl
                    unrealized_pnl_percentage :=
                      if 0 < (new_quantity : ℚ) * holding.avg_price then
                        unrealized_pnl / ((new_quantity : ℚ) * holding.avg_price) * 100
                      else holding.unrealized_pnl_percentage }
                { s1 with holdings := updateH s1.holdings o.symbol h' }
            let s3 := s2.update_portfolio_percentages
            (true, Msg.sellSuccess,
             { s3 with trade_history := s3.trade_history ++ [o] })

end PortfolioManager

/-- `models.AgentDecision` (the fields read by `_make_final_decision`). -/
structure AgentDecision where
  decision : DecisionType
  confidence : ℚ
  risk_assessment : Option RiskLevel := none
  position_size : Option ℚ := none
deriving DecidableEq, Repr

/-- `models.MainAgentDecision` (the fields computed by
`_make_final_decision`; `reasoning` and `agent_decisions` — an echo of the
inputs — are omitted). -/
structure MainAgentDecision where
  final_action : ActionType
  symbol : String
  confidence : ℚ
  risk_assessment : RiskLevel
  position_size : ℚ
  stop_loss : Option ℚ
  take_profit : Option ℚ
  next_interval : String
deriving DecidableEq, Repr

namespace MainAgent

/-- Python `x or 10` on an `Optional[float]`: `None` and `0.0` fall back. -/
def pyOrTen (x : Option ℚ) : ℚ :=
  match x with
  | some v => if v = 0 then 10 else v
  | none => 10

/-- `MainAgent._calculate_position_size`.  The portfolio-state dictionary is
passed as its two read entries `available_cash` / `total_value`; `none`
models the `ZeroDivisionError` when `total_value` is 0 and the vote list
is nonempty (the empty case returns 10 before the division). -/
def calculate_position_size (agent_decisions : List AgentDecision)
    (available_cash total_value : ℚ) : Option ℚ :=
  if agent_decisions = [] then some 10
  else
    let total_position_size :=
      (agent_decisions.map (fun d => pyOrTen d.position_size)).sum
    let avg_position_size := total_position_size / (agent_decisions.length : ℚ)
    if total_value = 0 then none
    else
      let cash_percentage := available_cash / total_value * 100
      let adjusted :=
        if cash_percentage < 20 then avg_position_size * (1/2)
        else if 80 < cash_percentage then avg_position_size * (12/10)
        else avg_position_size
      some (min (max adjusted (TradingConfig.MIN_POSITION_SIZE * 100))
                (TradingConfig.MAX_POSITION_SIZE * 100))

/-- The `risk_scores` table of `_determine_risk_level`. -/
def riskScore : RiskLevel → ℚ
  | .VERY_LOW => 1
  | .LOW => 2
  | .MEDIUM => 3
  | .HIGH => 4
  | .VERY_HIGH => 5

/-- `MainAgent._determine_risk_level` -/
def determine_risk_level (agent_decisions : List AgentDecision) : RiskLevel :=
  if agent_decisions = [] then RiskLevel.MEDIUM
  else
    let total_risk_score :=
      (agent_decisions.map (fun d =>
        match d.risk_assessment with
        | some r => riskScore r
        | none => 3)).sum
    let avg_risk_score := total_risk_score / (agent_decisions.length : ℚ)
    if avg_risk_score ≤ 3/2 then RiskLevel.VERY_LOW
    else if avg_risk_score ≤ 5/2 then RiskLevel.LOW
    else if avg_risk_score ≤ 7/2 then RiskLevel.MEDIUM
    else if avg_risk_score ≤ 9/2 then RiskLevel.HIGH
    else RiskLevel.VERY_HIGH

/-- `MainAgent._calculate_risk_levels`.  The Python method always returns
two concrete floats, which the caller stores into the `Optional`
`stop_loss` / `take_profit` fields — hence the `some`. -/
def calculate_risk_levels (current_price : ℚ) (risk_level : RiskLevel) :
    Option ℚ × Option ℚ :=
  let pcts : ℚ × ℚ :=
    match risk_level with
    | .VERY_LOW =>
      (TradingConfig.STOP_LOSS_PERCENTAGE * (1/2),
       TradingConfig.TAKE_PROFIT_PERCENTAGE * (3/2))
    | .LOW =>
      (TradingConfig.STOP_LOSS_PERCENTAGE * (3/4),
       TradingConfig.TAKE_PROFIT_PERCENTAGE * (5/4))
    | .MEDIUM =>
      (TradingConfig.STOP_LOSS_PERCENTAGE, TradingConfig.TAKE_PROFIT_PERCENTAGE)
    | .HIGH =>
      (TradingConfig.STOP_LOSS_PERCENTAGE * (5/4),
       TradingConfig.TAKE_PROFIT_PERCENTAGE * (3/4))
    | .VERY_HIGH =>
      (TradingConfig.STOP_LOSS_PERCENTAGE * (3/2),
       TradingConfig.TAKE_PROFIT_PERCENTAGE * (1/2))
  (some (current_price * (1 - pcts.1)), some (current_price * (1 + pcts.2)))

/-- `MainAgent._determine_next_interval` -/
def determine_next_interval (final_action : ActionType) (confidence : ℚ) : String :=
  if final_action = ActionType.BUY ∧ 80 < confidence then "1hour"
  else if final_action = ActionType.SELL ∧ 80 < confidence then "1hour"
  else if 70 < confidence then "5min"
  else if 50 < confidence then "15min"
  else "1hour"

/-- Vote bucket of one agent decision:
`decision.decision in [DecisionType.STRONG_BUY, DecisionType.BUY]`. -/
def isBuyVote (d : AgentDecision) : Bool :=
  match d.decision with
  | .STRONG_BUY => true
  | .BUY => true
  | _ => false

/-- Vote bucket of one agent decision:
`decision.decision in [DecisionType.STRONG_SELL, DecisionType.SELL]`. -/
def isSellVote (d : AgentDecision) : Bool :=
  match d.decision with
  | .STRONG_SELL => true
  | .SELL => true
  | _ => false

/-- The per-vote weight applied to `decision.confidence` when accumulating
`weighted_confidence`: buy signals are weighted 1.2, sell signals 1.1,
hold signals 1. -/
def voteWeight (d : AgentDecision) : ℚ :=
  if isBuyVote d then 12/10
  else if isSellVote d then 11/10
  else 1

/-- `MainAgent._make_final_decision` (less the `reasoning` string and the
echoed `agent_decisions`).  `symbol` and `current_price` stand for
`analysis_data.symbol` / `analysis_data.current_price`; `available_cash`
and `total_value` are the two entries `_calculate_position_size` reads from
the portfolio-state dictionary.  `none` models the `ZeroDivisionError`
propagated out of `_calculate_position_size`. -/
def make_final_decision (symbol : String) (current_price : ℚ)
    (agent_decisions : List AgentDecision) (available_cash total_value : ℚ) :
    Option MainAgentDecision :=
  let buy_votes := agent_decisions.countP isBuyVote
  let sell_votes := agent_decisions.countP isSellVote
  let hold_votes := agent_decisions.length - buy_votes - sell_votes
  let weighted_confidence :=
    (agent_decisions.map (fun d => d.confidence * voteWeight d)).sum
  let weighted_avg_confidence :=
    if agent_decisions = [] then 0
    else weighted_confidence / (agent_decisions.length : ℚ)
  let final_action :=
    if sell_votes < buy_votes ∧ hold_votes < buy_votes then
      if TradingConfig.BUY_CONFIDENCE_THRESHOLD ≤ weighted_avg_confidence then
        ActionType.BUY
      else ActionType.HOLD
    else if buy_votes < sell_votes ∧ hold_votes < sell_votes then
      if TradingConfig.SELL_CONFIDENCE_THRESHOLD ≤ weighted_avg_confidence then
        ActionType.SELL
      else ActionType.HOLD
    else ActionType.HOLD
  match calculate_position_size agent_decisions available_cash total_value with
  | none => none
  | some position_size =>
    let risk_level := determine_risk_level agent_decisions
    let levels := calculate_risk_levels current_price risk_level
    some { final_action := final_action
           symbol := symbol
           confidence := weighted_avg_confidence
           risk_assessment := risk_level
           position_size := position_size
           stop_loss := levels.1
           take_profit := levels.2
           next_interval := determine_next_interval final_action weighted_avg_confidence }

end MainAgent

/-! ### Auxiliary definitions used to state the verified properties -/

open PortfolioManager

/-- State after `execute_buy` (the unchanged state if the call raised). -/
def afterBuy (s : PortfolioManager) (o : TradeRequest) : PortfolioManager :=
  match s.execute_buy o with
  | some r => r.2.2
  | none => s

/-- Whether `execute_buy` returned `(True, ...)`. -/
def buyOk (s : PortfolioManager) (o : TradeRequest) : Bool :=
  match s.execute_buy o with
  | some (true, _, _) => true
  | _ => false

/-- State after `execute_sell`. -/
def afterSell (s : PortfolioManager) (o : TradeRequest) : PortfolioManager :=
  (s.execute_sell o).2.2

/-- State after `can_buy` (the unchanged state if the call raised). -/
def canBuyState (s : PortfolioManager) (sym : String) (q : Int) (p : ℚ) :
    PortfolioManager :=
  match s.can_buy sym q p with
  | some r => r.2.2
  | none => s

/-- Stored quantity of a symbol (0 when the symbol is not held). -/
def quantityOf (s : PortfolioManager) (sym : String) : Int :=
  match lookupH s.holdings sym with
  | some h => h.quantity
  | none => 0

/-- Stored `current_price` of a symbol (0 when the symbol is not held). -/
def currentPriceOf (s : PortfolioManager) (sym : String) : ℚ :=
  match lookupH s.holdings sym with
  | some h => h.current_price
  | none => 0

/-- Total cost basis of the open positions: `Σ quantity * averageCost`. -/
def holdingsBasis (l : List (String × Holding)) : ℚ :=
  (l.map (fun kh => (kh.2.quantity : ℚ) * kh.2.avg_price)).sum

/-- The conservation quantity of the ledger:
`availableCash + Σ quantity*averageCost − realizedPnL`. -/
def conserved (s : PortfolioManager) : ℚ :=
  s.available_cash + holdingsBasis s.holdings - s.total_pnl

/-- States reachable from a fresh ledger with budget `b` by sequences of
`execute_buy` / `execute_sell` calls that each return success. -/
inductive ReachableSucc (b : ℚ) : PortfolioManager → Prop
  | init : ReachableSucc b (PortfolioManager.mkNew b)
  | buy (s : PortfolioManager) (o : TradeRequest) (m : Msg) (s' : PortfolioManager) :
      ReachableSucc b s → s.execute_buy o = some (true, m, s') → ReachableSucc b s'
  | sell (s : PortfolioManager) (o : TradeRequest) (m : Msg) (s' : PortfolioManager) :
      ReachableSucc b s → s.execute_sell o = (true, m, s') → ReachableSucc b s'

/-- States reachable from a fresh ledger with budget `b` by price updates
with positive prices, arbitrary buy orders, and sell orders whose
explicit quantity / percentage (when supplied) is nonnegative.  Only
successful buys/sells change the state, so only those appear. -/
inductive ReachableSafe (b : ℚ) : PortfolioManager → Prop
  | init : ReachableSafe b (PortfolioManager.mkNew b)
  | price (s : PortfolioManager) (sym : String) (p : ℚ) :
      ReachableSafe b s → 0 < p → ReachableSafe b (s.update_holding_price sym p)
  | buy (s : PortfolioManager) (o : TradeRequest) (m : Msg) (s' : PortfolioManager) :
      ReachableSafe b s → s.execute_buy o = some (true, m, s') → ReachableSafe b s'
  | sell (s : PortfolioManager) (o : TradeRequest) (m : Msg) (s' : PortfolioManager) :
      ReachableSafe b s →
      (∀ pc, o.percentage = some pc → 0 ≤ pc) →
      (∀ q, o.quantity = some q → 0 ≤ q) →
      s.execute_sell o = (true, m, s') → ReachableSafe b s'

/-- The non-negativity invariant: cash is nonnegative and every stored
position has positive quantity (`quantity > 0 while the Position exists`)
and positive stored valuation. -/
def NonNegInv (s : PortfolioManager) : Prop :=
  0 ≤ s.available_cash ∧
  ∀ kh ∈ s.holdings, 0 < kh.2.quantity ∧ 0 < kh.2.current_value

/-! ### Concrete inputs used by witnesses and counterexamples -/

/-- A fresh ledger with the configured initial budget of 100000. -/
def fresh100k : PortfolioManager := PortfolioManager.mkNew 100000

/-- Buy 300 shares of A at price 100 (cost 30000 = 30% of a fresh ledger). -/
def oBuy300 : TradeRequest :=
  { action := .BUY, symbol := "A", quantity := some 300, price := some 100 }

/-- A sell order carrying a negative explicit quantity. -/
def oSellNeg : TradeRequest :=
  { action := .SELL, symbol := "A", quantity := some (-5000), price := some 100 }

/-- A buy order specifying both an explicit quantity (60) and a
percentage (20). -/
def oBuyBoth : TradeRequest :=
  { action := .BUY, symbol := "A", quantity := some 60, percentage := some 20,
    price := some 100 }

/-- A buy order whose percentage resolves to 0 shares
(`100000 * 0.001% / 100 = 0.01` shares, truncated to 0). -/
def oBuyTinyPct : TradeRequest :=
  { action := .BUY, symbol := "A", percentage := some (1/1000), price := some 100 }

/-- A sell order whose percentage resolves to 0 shares
(`300 * 0.1% = 0.3` shares, truncated to 0). -/
def oSellTinyPct : TradeRequest :=
  { action := .SELL, symbol := "A", percentage := some (1/10), price := some 100 }

/-- A buy order specifying neither quantity nor percentage. -/
def oBuyNoQty : TradeRequest :=
  { action := .BUY, symbol := "A", price := some 100 }

/-- A sell order specifying neither quantity nor percentage. -/
def oSellNoQty : TradeRequest :=
  { action := .SELL, symbol := "A", price := some 100 }

/-- Buy 10 shares of A at 1000. -/
def oBuy10 : TradeRequest :=
  { action := .BUY, symbol := "A", quantity := some 10, price := some 1000 }

/-- Sell 2 shares of A at 3000. -/
def oSell2 : TradeRequest :=
  { action := .SELL, symbol := "A", quantity := some 2, price := some 3000 }

/-- Sell 8 shares of A at 3000. -/
def oSell8 : TradeRequest :=
  { action := .SELL, symbol := "A", quantity := some 8, price := some 3000 }

/-- Ledger reached from `fresh100k` by: buy 10 A @ 1000, sell 2 A @ 3000
(booking profit 4000 and caching `total_pnl_percentage = 100`), then sell
the remaining 8 A @ 3000 (cash ends at 120000 > budget). -/
def staleCacheState : PortfolioManager :=
  afterSell (afterSell (afterBuy fresh100k oBuy10) oSell2) oSell8

/-- A hand-written ledger state whose cached `total_pnl_percentage` (77)
disagrees with the canonical value (0): used to show `can_buy` writes
that cache. -/
def c4stale : PortfolioManager :=
  { initial_budget := 100000, available_cash := 50000,
    holdings := [("A", ⟨"A", 500, 100, 100, 50000, 0, 0, 50⟩)],
    trade_history := [], total_pnl := 0, total_pnl_percentage := 77 }

/-- One BUY vote at confidence 60. -/
def vBuy60 : AgentDecision := { decision := .BUY, confidence := 60 }

/-- One BUY vote at confidence 55. -/
def vBuy55 : AgentDecision := { decision := .BUY, confidence := 55 }

/-- Final action of an aggregator result (`none` if the call raised). -/
def finalActionOf (d : Option MainAgentDecision) : Option ActionType :=
  match d with
  | some r => some r.final_action
  | none => none

/-! ### Helper lemmas: `get_portfolio_state` touches only the cached
`total_pnl_percentage`, and is idempotent -/

theorem gps_snd_cash (s : PortfolioManager) :
    (s.get_portfolio_state).2.available_cash = s.available_cash := rfl

theorem gps_snd_holdings (s : PortfolioManager) :
    (s.get_portfolio_state).2.holdings = s.holdings := rfl

theorem gps_snd_pnl (s : PortfolioManager) :
    (s.get_portfolio_state).2.total_pnl = s.total_pnl := rfl

theorem gps_snd_history (s : PortfolioManager) :
    (s.get_portfolio_state).2.trade_history = s.trade_history := rfl

theorem gps_snd_budget (s : PortfolioManager) :
    (s.get_portfolio_state).2.initial_budget = s.initial_budget := rfl

theorem gps_idem (s : PortfolioManager) :
    ((s.get_portfolio_state).2).get_portfolio_state = s.get_portfolio_state := by
  simp only [PortfolioManager.get_portfolio_state]
  split <;> simp_all

/-! ### Helper lemmas: the holdings association list -/

theorem lookupH_mem (l : List (String × Holding)) (sym : String) (h : Holding)
    (hl : lookupH l sym = some h) : (sym, h) ∈ l := by
  induction l with
  | nil => simp [lookupH] at hl
  | cons kh rest ih =>
    rcases kh with ⟨k, v⟩
    by_cases hk : k = sym
    · subst hk
      simp [lookupH] at hl
      subst hl
      exact List.mem_cons_self _ _
    · simp [lookupH, hk] at hl
      exact List.mem_cons_of_mem _ (ih hl)

theorem mem_updateH (l : List (String × Holding)) (sym : String) (h' : Holding)
    (kh : String × Holding) (hm : kh ∈ updateH l sym h') :
    kh ∈ l ∨ kh.2 = h' := by
  induction l with
  | nil => simp [updateH] at hm
  | cons p rest ih =>
    rcases p with ⟨k, v⟩
    by_cases hk : k = sym
    · simp only [updateH, if_pos hk] at hm
      rcases List.mem_cons.mp hm with rfl | hm
      · right; rfl
      · left; exact List.mem_cons_of_mem _ hm
    · simp only [updateH, if_neg hk] at hm
      rcases List.mem_cons.mp hm with rfl | hm
      · left; exact List.mem_cons_self _ _
      · rcases ih hm with hin | he
        · left; exact List.mem_cons_of_mem _ hin
        · right; exact he

theorem mem_eraseH (l : List (String × Holding)) (sym : String)
    (kh : String × Holding) (hm : kh ∈ eraseH l sym) : kh ∈ l := by
  induction l with
  | nil => simp [eraseH] at hm
  | cons p rest ih =>
    rcases p with ⟨k, v⟩
    by_cases hk : k = sym
    · simp only [eraseH, if_pos hk] at hm
      exact List.mem_cons_of_mem _ hm
    · simp only [eraseH, if_neg hk] at hm
      rcases List.mem_cons.mp hm with rfl | hm
      · exact List.mem_cons_self _ _
      · exact List.mem_cons_of_mem _ (ih hm)

theorem lookupH_updateH_self (l : List (String × Holding)) (sym : String)
    (h h' : Holding) (hl : lookupH l sym = some h) :
    lookupH (updateH l sym h') sym = some h' := by
  induction l with
  | nil => simp [lookupH] at hl
  | cons p rest ih =>
    rcases p with ⟨k, v⟩
    by_cases hk : k = sym
    · simp [updateH, lookupH, hk]
    · simp only [updateH, if_neg hk, lookupH]
      simp only [lookupH, if_neg hk] at hl
      simp [hk, ih hl]

theorem holdingsBasis_nil : holdingsBasis [] = 0 := rfl

theorem holdingsBasis_cons (kh : String × Holding) (l : List (String × Holding)) :
    holdingsBasis (kh :: l) = (kh.2.quantity : ℚ) * kh.2.avg_price + holdingsBasis l := rfl

theorem holdingsBasis_append (l1 l2 : List (String × Holding)) :
    holdingsBasis (l1 ++ l2) = holdingsBasis l1 + holdingsBasis l2 := by
  simp [holdingsBasis]

theorem holdingsBasis_updateH (l : List (String × Holding)) (sym : String)
    (h h' : Holding) (hl : lookupH l sym = some h) :
    holdingsBasis (updateH l sym h') =
      holdingsBasis l - (h.quantity : ℚ) * h.avg_price
        + (h'.quantity : ℚ) * h'.avg_price := by
  induction l with
  | nil => simp [lookupH] at hl
  | cons p rest ih =>
    rcases p with ⟨k, v⟩
    by_cases hk : k = sym
    · simp only [lookupH, if_pos hk] at hl
      cases hl
      simp only [updateH, if_pos hk, holdingsBasis_cons]
      ring
    · simp only [lookupH, if_neg hk] at hl
      simp only [updateH, if_neg hk, holdingsBasis_cons, ih hl]
      ring

theorem holdingsBasis_eraseH (l : List (String × Holding)) (sym : String)
    (h : Holding) (hl : lookupH l sym = some h) :
    holdingsBasis (eraseH l sym) =
      holdingsBasis l - (h.quantity : ℚ) * h.avg_price := by
  induction l with
  | nil => simp [lookupH] at hl
  | cons p rest ih =>
    rcases p with ⟨k, v⟩
    by_cases hk : k = sym
    · simp only [lookupH, if_pos hk] at hl
      cases hl
      simp only [eraseH, if_pos hk, holdingsBasis_cons]
      ring
    · simp only [lookupH, if_neg hk] at hl
      simp only [eraseH, if_neg hk, holdingsBasis_cons, ih hl]
      ring

theorem holdingsBasis_map_pct (l : List (String × Holding))
    (g : String × Holding → ℚ) :
    holdingsBasis (l.map (fun kh =>
      (kh.1, { kh.2 with percentage_of_portfolio := g kh }))) = holdingsBasis l := by
  induction l with
  | nil => rfl
  | cons p rest ih => simp [holdingsBasis_cons, ih]

/-! ### Helper lemmas: `_update_portfolio_percentages` only rewrites
derived percentage fields -/

theorem upp_cash (s : PortfolioManager) :
    (s.update_portfolio_percentages).available_cash = s.available_cash := by
  simp only [PortfolioManager.update_portfolio_percentages]
  split <;> rfl

theorem upp_pnl (s : PortfolioManager) :
    (s.update_portfolio_percentages).total_pnl = s.total_pnl := by
  simp only [PortfolioManager.update_portfolio_percentages]
  split <;> rfl

theorem upp_history (s : PortfolioManager) :
    (s.update_portfolio_percentages).trade_history = s.trade_history := by
  simp only [PortfolioManager.update_portfolio_percentages]
  split <;> rfl

theorem upp_budget (s : PortfolioManager) :
    (s.update_portfolio_percentages).initial_budget = s.initial_budget := by
  simp only [PortfolioManager.update_portfolio_percentages]
  split <;> rfl

theorem upp_basis (s : PortfolioManager) :
    holdingsBasis (s.update_portfolio_percentages).holdings =
      holdingsBasis s.holdings := by
  simp only [PortfolioManager.update_portfolio_percentages]
  split
  · exact holdingsBasis_map_pct _ _
  · rfl

theorem upp_inv (s : PortfolioManager)
    (hInv : ∀ kh ∈ s.holdings, 0 < kh.2.quantity ∧ 0 < kh.2.current_value) :
    ∀ kh ∈ (s.update_portfolio_percentages).holdings,
      0 < kh.2.quantity ∧ 0 < kh.2.current_value := by
  simp only [PortfolioManager.update_portfolio_percentages]
  split
  · intro kh hm
    rcases List.mem_map.mp hm with ⟨kh0, h0, rfl⟩
    exact hInv kh0 h0
  · exact hInv

/-! ### Helper lemmas: `can_buy` -/

theorem can_buy_some_state (s : PortfolioManager) (sym : String) (q : Int) (p : ℚ)
    (r : Bool × Msg × PortfolioManager) (h : s.can_buy sym q p = some r) :
    r.2.2 = s ∨ r.2.2 = (s.get_portfolio_state).2 := by
  simp only [PortfolioManager.can_buy] at h
  split at h
  · cases h; left; rfl
  · split at h
    · cases h
    · split at h
      · cases h; right; rfl
      · split at h
        · cases h; right; rfl
        · cases h; right; rfl

theorem can_buy_true_elim (s : PortfolioManager) (sym : String) (q : Int) (p : ℚ)
    (msg : Msg) (s1 : PortfolioManager)
    (h : s.can_buy sym q p = some (true, msg, s1)) :
    s1 = (s.get_portfolio_state).2 ∧ (q : ℚ) * p ≤ s.available_cash ∧
    (s.get_portfolio_state).1.total_value ≠ 0 ∧
    TradingConfig.MIN_POSITION_SIZE * 100 ≤
      (q : ℚ) * p / (s.get_portfolio_state).1.total_value * 100 := by
  simp only [PortfolioManager.can_buy] at h
  split at h
  · simp at h
  · split at h
    · cases h
    · split at h
      · simp at h
      · split at h
        · simp at h
        · next hcash _ hlarge hsmall =>
          cases h
          refine ⟨rfl, le_of_not_lt hcash, by assumption, le_of_not_lt hsmall⟩

/-! ### Helper lemmas: the holdings mutation of a successful buy -/

theorem buy_update_holdings_elim (s : PortfolioManager) (sym : String) (q : Int)
    (p : ℚ) (s3 : PortfolioManager) (h : buy_update_holdings s sym q p = some s3) :
    s3.available_cash = s.available_cash ∧ s3.total_pnl = s.total_pnl ∧
    s3.trade_history = s.trade_history ∧ s3.initial_budget = s.initial_budget ∧
    holdingsBasis s3.holdings = holdingsBasis s.holdings + (q : ℚ) * p := by
  simp only [buy_update_holdings] at h
  split at h
  · next holding hlk =>
    split at h
    · cases h
    · next hne =>
      cases h
      refine ⟨rfl, rfl, rfl, rfl, ?_⟩
      rw [holdingsBasis_updateH s.holdings sym holding _ hlk]
      have hq : ((holding.quantity + q : Int) : ℚ) ≠ 0 := by exact_mod_cast hne
      push_cast at hq ⊢
      field_simp
      ring
  · cases h
    refine ⟨rfl, rfl, rfl, rfl, ?_⟩
    rw [holdingsBasis_append]
    simp [holdingsBasis]

/-! ### Conservation step lemmas -/

theorem buy_step_conserved (s : PortfolioManager) (o : TradeRequest) (m : Msg)
    (s' : PortfolioManager) (h : s.execute_buy o = some (true, m, s')) :
    conserved s' = conserved s ∧ s'.initial_budget = s.initial_budget := by
  simp only [PortfolioManager.execute_buy] at h
  split at h
  · simp at h
  · split at h
    · simp at h
    · split at h
      · simp at h
      · split at h
        · cases h
        · next ok msg s1 hcb =>
          split at h
          · simp at h
          · next hok =>
            split at h
            · cases h
            · next s3 hbu =>
              cases h
              have hok' : ok = true := by
                cases ok
                · exact absurd rfl hok
                · rfl
              subst hok'
              obtain ⟨hs1, _, _, _⟩ := can_buy_true_elim s o.symbol _ _ msg s1 hcb
              obtain ⟨hc3, hp3, hh3, hb3, hbasis3⟩ :=
                buy_update_holdings_elim _ o.symbol _ _ s3 hbu
              constructor
              · simp only [conserved, upp_cash, upp_pnl, upp_basis]
                rw [hc3, hp3, hbasis3]
                subst hs1
                simp only [gps_snd_cash, gps_snd_pnl, gps_snd_holdings]
                ring
              · simp only [upp_budget]
                rw [hb3]
                subst hs1
                simp [gps_snd_budget]

theorem sell_step_conserved (s : PortfolioManager) (o : TradeRequest) (m : Msg)
    (s' : PortfolioManager) (h : s.execute_sell o = (true, m, s')) :
    conserved s' = conserved s ∧ s'.initial_budget = s.initial_budget := by
  simp only [PortfolioManager.execute_sell] at h
  split at h
  · simp at h
  · split at h
    · simp at h
    · split at h
      · simp at h
      · next holding hlk =>
        split at h
        · simp at h
        · next q hq =>
          split at h
          · simp at h
          · cases h
            constructor
            · simp only [conserved, upp_cash, upp_pnl, upp_basis]
              split
              · next hzero =>
                rw [holdingsBasis_eraseH s.holdings o.symbol holding hlk]
                have : (q : ℚ) = (holding.quantity : ℚ) := by
                  have : holding.quantity - q = 0 := hzero
                  have := sub_eq_zero.mp this
                  exact_mod_cast this.symm
                rw [this]
                ring
              · rw [holdingsBasis_updateH s.holdings o.symbol holding _ hlk]
                push_cast
                ring
            · simp only [upp_budget]
              split <;> rfl

/-! ### Non-negativity step lemmas -/

theorem pyInt_nonneg (x : ℚ) (hx : 0 ≤ x) : 0 ≤ pyInt x := by
  simp only [pyInt, if_neg (not_lt.mpr hx)]
  exact Int.floor_nonneg.mpr hx

theorem total_value_pos (s : PortfolioManager) (hInv : NonNegInv s)
    (hne : (s.get_portfolio_state).1.total_value ≠ 0) :
    0 < (s.get_portfolio_state).1.total_value := by
  rcases hInv with ⟨hc, hh⟩
  have hsum : 0 ≤ (s.holdings.map (fun kh => kh.2.current_value)).sum := by
    apply List.sum_nonneg
    intro x hx
    rcases List.mem_map.mp hx with ⟨kh, hkh, rfl⟩
    exact (hh kh hkh).2.le
  have : (0:ℚ) ≤ (s.get_portfolio_state).1.total_value := by
    show (0:ℚ) ≤ s.available_cash + (s.holdings.map (fun kh => kh.2.current_value)).sum
    linarith
  exact lt_of_le_of_ne this (Ne.symm hne)

theorem buy_update_holdings_inv (s : PortfolioManager) (sym : String) (q : Int)
    (p : ℚ) (s3 : PortfolioManager) (hq : 0 < q) (hp : 0 < p)
    (hInv : ∀ kh ∈ s.holdings, 0 < kh.2.quantity ∧ 0 < kh.2.current_value)
    (h : buy_update_holdings s sym q p = some s3) :
    ∀ kh ∈ s3.holdings, 0 < kh.2.quantity ∧ 0 < kh.2.current_value := by
  simp only [buy_update_holdings] at h
  split at h
  · next holding hlk =>
    split at h
    · cases h
    · cases h
      intro kh hm
      rcases mem_updateH _ _ _ _ hm with hin | he
      · exact hInv kh hin
      · have hq0 : 0 < holding.quantity := (hInv _ (lookupH_mem _ _ _ hlk)).1
        rw [he]
        constructor
        · simp only []
          omega
        · simp only []
          have : (0:ℚ) < ((holding.quantity + q : Int) : ℚ) := by exact_mod_cast by omega
          exact mul_pos this hp
  · cases h
    intro kh hm
    rcases List.mem_append.mp hm with hin | hnew
    · exact hInv kh hin
    · rcases List.mem_singleton.mp hnew with rfl
      refine ⟨hq, ?_⟩
      have : (0:ℚ) < (q : ℚ) := by exact_mod_cast hq
      exact mul_pos this hp

theorem buy_step_inv (s : PortfolioManager) (o : TradeRequest) (m : Msg)
    (s' : PortfolioManager) (hInv : NonNegInv s)
    (h : s.execute_buy o = some (true, m, s')) : NonNegInv s' := by
  simp only [PortfolioManager.execute_buy] at h
  split at h
  · simp at h
  · split at h
    · simp at h
    · next hple =>
      split at h
      · simp at h
      · next q hres =>
        split at h
        · cases h
        · next ok msg s1 hcb =>
          split at h
          · simp at h
          · next hok =>
            split at h
            · cases h
            · next s3 hbu =>
              cases h
              have hok' : ok = true := by
                cases ok
                · exact absurd rfl hok
                · rfl
              subst hok'
              have hp : 0 < o.price.getD 0 := lt_of_not_le hple
              obtain ⟨hs1, hcost, htvne, hmin⟩ :=
                can_buy_true_elim s o.symbol _ _ msg s1 hcb
              have htv : 0 < (s.get_portfolio_state).1.total_value :=
                total_value_pos s hInv htvne
              have hcostpos : 0 < (q : ℚ) * o.price.getD 0 := by
                rw [TradingConfig.MIN_POSITION_SIZE] at hmin
                by_contra hle
                push_neg at hle
                have hdiv : (q : ℚ) * o.price.getD 0 /
                    (s.get_portfolio_state).1.total_value ≤ 0 :=
                  div_nonpos_of_nonpos_of_nonneg hle htv.le
                nlinarith
              have hqpos : 0 < q := by
                by_contra hle
                push_neg at hle
                have hle' : ((q : ℚ)) ≤ 0 := by exact_mod_cast hle
                nlinarith [mul_nonpos_of_nonpos_of_nonneg hle' hp.le]
              constructor
              · show (0:ℚ) ≤ _
                rw [upp_cash]
                obtain ⟨hc3, _, _, _, _⟩ := buy_update_holdings_elim _ o.symbol _ _ s3 hbu
                rw [hc3]
                subst hs1
                simp only [gps_snd_cash]
                linarith
              · intro kh hm
                refine upp_inv s3 ?_ kh hm
                apply buy_update_holdings_inv _ o.symbol q (o.price.getD 0) s3 hqpos hp _ hbu
                subst hs1
                simp only [gps_snd_holdings]
                exact hInv.2

theorem explicitQuantity_nonneg (o : TradeRequest) (q : Int)
    (hqt : ∀ qq, o.quantity = some qq → 0 ≤ qq)
    (h : explicitQuantity o = some q) : 0 ≤ q := by
  simp only [explicitQuantity] at h
  split at h
  · next qq hqq =>
    split at h
    · cases h
      exact hqt _ hqq
    · cases h
  · cases h

theorem resolve_sell_nonneg (holding : Holding) (o : TradeRequest) (q : Int)
    (hqty : 0 ≤ holding.quantity)
    (hpc : ∀ pc, o.percentage = some pc → 0 ≤ pc)
    (hqt : ∀ qq, o.quantity = some qq → 0 ≤ qq)
    (h : PortfolioManager.resolve_sell_quantity holding o = some q) : 0 ≤ q := by
  simp only [PortfolioManager.resolve_sell_quantity] at h
  split at h
  · next pc hpceq =>
    split at h
    · cases h
      apply pyInt_nonneg
      have h1 : (0:ℚ) ≤ (holding.quantity : ℚ) := by exact_mod_cast hqty
      have h2 : 0 ≤ pc := hpc pc hpceq
      have h3 : (0:ℚ) ≤ pc / 100 := by positivity
      exact mul_nonneg h1 h3
    · exact explicitQuantity_nonneg o q hqt h
  · exact explicitQuantity_nonneg o q hqt h

theorem sell_step_inv (s : PortfolioManager) (o : TradeRequest) (m : Msg)
    (s' : PortfolioManager) (hInv : NonNegInv s)
    (hpc : ∀ pc, o.percentage = some pc → 0 ≤ pc)
    (hqt : ∀ qq, o.quantity = some qq → 0 ≤ qq)
    (h : s.execute_sell o = (true, m, s')) : NonNegInv s' := by
  simp only [PortfolioManager.execute_sell] at h
  split at h
  · simp at h
  · split at h
    · simp at h
    · next hple =>
      split at h
      · simp at h
      · next holding hlk =>
        split at h
        · simp at h
        · next q hres =>
          split at h
          · simp at h
          · next hcs =>
            cases h
            have hp : 0 < o.price.getD 0 := lt_of_not_le hple
            have hqpos0 : 0 < holding.quantity :=
              (hInv.2 _ (lookupH_mem _ _ _ hlk)).1
            have hq0 : 0 ≤ q :=
              resolve_sell_nonneg holding o q hqpos0.le hpc hqt hres
            have hqle : q ≤ holding.quantity := by
              have hcs' : (s.can_sell o.symbol q).1 = true := by
                cases heq : (s.can_sell o.symbol q).1
                · exact absurd heq hcs
                · rfl
              simp only [PortfolioManager.can_sell, hlk] at hcs'
              split at hcs'
              · cases hcs'
              · next hlt => exact le_of_not_lt hlt
            constructor
            · show (0:ℚ) ≤ _
              rw [upp_cash]
              have hqp : (0:ℚ) ≤ (q : ℚ) * o.price.getD 0 := by
                have : (0:ℚ) ≤ (q : ℚ) := by exact_mod_cast hq0
                exact mul_nonneg this hp.le
              split
              · show (0:ℚ) ≤ s.available_cash + (q : ℚ) * o.price.getD 0
                linarith [hInv.1]
              · show (0:ℚ) ≤ s.available_cash + (q : ℚ) * o.price.getD 0
                linarith [hInv.1]
            · intro kh hm
              refine upp_inv _ ?_ kh hm
              split
              · intro kh2 hm2
                exact hInv.2 kh2 (mem_eraseH _ _ _ hm2)
              · next hne =>
                intro kh2 hm2
                rcases mem_updateH _ _ _ _ hm2 with hin | he
                · exact hInv.2 kh2 hin
                · rw [he]
                  have hlt : 0 < holding.quantity - q := by omega
                  refine ⟨hlt, ?_⟩
                  have : (0:ℚ) < ((holding.quantity - q : Int) : ℚ) := by
                    exact_mod_cast hlt
                  exact mul_pos this hp

theorem price_step_inv (s : PortfolioManager) (sym : String) (p : ℚ)
    (hp : 0 < p) (hInv : NonNegInv s) :
    NonNegInv (s.update_holding_price sym p) := by
  simp only [PortfolioManager.update_holding_price]
  split
  · exact hInv
  · next holding hlk =>
    have hqpos : 0 < holding.quantity := (hInv.2 _ (lookupH_mem _ _ _ hlk)).1
    have hcv : (0:ℚ) < (holding.quantity : ℚ) * p := by
      have : (0:ℚ) < (holding.quantity : ℚ) := by exact_mod_cast hqpos
      exact mul_pos this hp
    constructor
    · show (0:ℚ) ≤ _
      simp only [gps_snd_cash]
      exact hInv.1
    · intro kh hm
      simp only [gps_snd_holdings] at hm
      rcases mem_updateH _ _ _ _ hm with hm1 | he2
      · rcases mem_updateH _ _ _ _ hm1 with hm0 | he1
        · exact hInv.2 kh hm0
        · rw [he1]
          exact ⟨hqpos, hcv⟩
      · rw [he2]
        refine ⟨?_, ?_⟩
        · repeat' split
          all_goals exact hqpos
        · repeat' split
          all_goals exact hcv

/-! ### Failure-path analysis: a rejected order leaves the ledger fields
unchanged (at most the cached `total_pnl_percentage` is rewritten) -/

theorem execute_buy_false_state (s : PortfolioManager) (o : TradeRequest) (m : Msg)
    (s' : PortfolioManager) (h : s.execute_buy o = some (false, m, s')) :
    s' = s ∨ s' = (s.get_portfolio_state).2 := by
  simp only [PortfolioManager.execute_buy] at h
  split at h
  · cases h; left; rfl
  · split at h
    · cases h; left; rfl
    · split at h
      · cases h; left; rfl
      · next q hres =>
        split at h
        · cases h
        · next ok msg s1 hcb =>
          split at h
          · cases h
            exact can_buy_some_state s o.symbol q _ _ hcb
          · split at h
            · cases h
            · simp at h

theorem execute_sell_false_state (s : PortfolioManager) (o : TradeRequest) (m : Msg)
    (s' : PortfolioManager) (h : s.execute_sell o = (false, m, s')) : s' = s := by
  simp only [PortfolioManager.execute_sell] at h
  split at h
  · cases h; rfl
  · split at h
    · cases h; rfl
    · split at h
      · cases h; rfl
      · next holding hlk =>
        split at h
        · cases h; rfl
        · next q hres =>
          split at h
          · cases h; rfl
          · simp at h

theorem currentPriceOf_eq (s : PortfolioManager) (sym : String) (h : Holding)
    (hl : lookupH s.holdings sym = some h) :
    currentPriceOf s sym = h.current_price := by
  simp [currentPriceOf, hl]

/-- `_calculate_position_size` returns normally whenever `total_value` is
nonzero (the division only happens for a nonempty vote list). -/
theorem calc_pos_size_isSome (ds : List AgentDecision) (cash tv : ℚ)
    (htv : tv ≠ 0) : ∃ v, MainAgent.calculate_position_size ds cash tv = some v := by
  simp only [MainAgent.calculate_position_size, if_neg htv]
  split
  · exact ⟨10, rfl⟩
  · exact ⟨_, rfl⟩

/-! ### The verified claims -/

/-- C1.  Conservation: in every state reachable from a fresh ledger with
budget `b` by `execute_buy` / `execute_sell` calls that each return
success, `availableCash + Σ quantity*averageCost over open positions −
realizedPnL = initialBudget` in exact arithmetic, and the stored
`initial_budget` field still equals `b`: each successful buy moves exactly
`quantity*price` from cash into cost basis (the weighted-average
recomputation preserves total basis), and each successful sell removes
`quantity*averageCost` of basis, adds `quantity*price` to cash, and books
exactly the difference into `realizedPnL`. -/
theorem C1_conservation (b : ℚ) (s : PortfolioManager) (h : ReachableSucc b s) :
    s.available_cash + holdingsBasis s.holdings - s.total_pnl = b ∧
    s.initial_budget = b := by
  induction h with
  | init => simp [PortfolioManager.mkNew, holdingsBasis]
  | buy s o m s' _ hb ih =>
    obtain ⟨hcons, hbud⟩ := buy_step_conserved s o m s' hb
    simp only [conserved] at hcons
    exact ⟨by rw [hcons]; exact ih.1, by rw [hbud]; exact ih.2⟩
  | sell s o m s' _ hb ih =>
    obtain ⟨hcons, hbud⟩ := sell_step_conserved s o m s' hb
    simp only [conserved] at hcons
    exact ⟨by rw [hcons]; exact ih.1, by rw [hbud]; exact ih.2⟩

/-- Witness for C1 at a concrete reachable state: a fresh 100000 ledger
after one successful buy of 300 shares at price 100. -/
theorem C1_conservation_witness :
    (afterBuy fresh100k oBuy300).available_cash +
      holdingsBasis (afterBuy fresh100k oBuy300).holdings -
      (afterBuy fresh100k oBuy300).total_pnl = 100000 ∧
    (afterBuy fresh100k oBuy300).initial_budget = 100000 :=
  C1_conservation 100000 (afterBuy fresh100k oBuy300)
    (ReachableSucc.buy _ oBuy300 Msg.buySuccess _ ReachableSucc.init
      (by norm_num [fresh100k, afterBuy, PortfolioManager.mkNew, oBuy300,
        PortfolioManager.execute_buy, PortfolioManager.resolve_buy_quantity,
        explicitQuantity, pyInt, PortfolioManager.can_buy, PortfolioManager.can_sell,
        PortfolioManager.get_portfolio_state, buy_update_holdings, lookupH, updateH,
        eraseH, PortfolioManager.update_portfolio_percentages,
        TradingConfig.MAX_POSITION_SIZE, TradingConfig.MIN_POSITION_SIZE]))

/-- C2.  Atomicity of rejected orders: if `execute_buy` or `execute_sell`
returns a failure result `(False, reason)`, then `availableCash`, the
positions map (every field of every position), `realizedPnL` and the trade
history are exactly as before the call, and `get_portfolio_state` returns
a value identical to the one it returned before the call. -/
theorem C2_failed_order_atomicity (s : PortfolioManager) (o : TradeRequest)
    (m : Msg) (s' : PortfolioManager)
    (h : s.execute_buy o = some (false, m, s') ∨ s.execute_sell o = (false, m, s')) :
    s'.available_cash = s.available_cash ∧ s'.holdings = s.holdings ∧
    s'.total_pnl = s.total_pnl ∧ s'.trade_history = s.trade_history ∧
    (s'.get_portfolio_state).1 = (s.get_portfolio_state).1 := by
  have hs' : s' = s ∨ s' = (s.get_portfolio_state).2 := by
    rcases h with h | h
    · exact execute_buy_false_state s o m s' h
    · exact Or.inl (execute_sell_false_state s o m s' h)
  rcases hs' with rfl | rfl
  · exact ⟨rfl, rfl, rfl, rfl, rfl⟩
  · exact ⟨gps_snd_cash s, gps_snd_holdings s, gps_snd_pnl s, gps_snd_history s,
      congrArg Prod.fst (gps_idem s)⟩

/-- Witness for C2: a concrete rejected buy (an order whose action is SELL)
on a fresh 100000 ledger. -/
theorem C2_failed_order_atomicity_witness :
    fresh100k.available_cash = fresh100k.available_cash ∧
    fresh100k.holdings = fresh100k.holdings ∧
    fresh100k.total_pnl = fresh100k.total_pnl ∧
    fresh100k.trade_history = fresh100k.trade_history ∧
    (fresh100k.get_portfolio_state).1 = (fresh100k.get_portfolio_state).1 :=
  C2_failed_order_atomicity fresh100k oSellNeg Msg.invalidActionBuy fresh100k
    (Or.inl (by
      norm_num [fresh100k, PortfolioManager.mkNew, oSellNeg,
        PortfolioManager.execute_buy]
      exact fun hc => nomatch hc))

/-- C3 counterexample.  The claim "`availableCash ≥ 0` in every state
reachable with arbitrary `TradeOrder` inputs" is false: from a fresh
100000 ledger, a successful buy of 300 shares at 100 followed by a
successful sell with explicit quantity −5000 at price 100 (which
`can_sell` accepts, since it only checks `quantity > holding.quantity`)
leaves `availableCash = −430000 < 0`, and raises the quantity of the position
to 5300 instead of lowering it. -/
theorem C3_nonneg_counterexample :
    buyOk fresh100k oBuy300 = true ∧
    ((afterBuy fresh100k oBuy300).execute_sell oSellNeg).1 = true ∧
    ((afterBuy fresh100k oBuy300).execute_sell oSellNeg).2.2.available_cash
      = -430000 ∧
    quantityOf ((afterBuy fresh100k oBuy300).execute_sell oSellNeg).2.2 "A"
      = 5300 := by
  norm_num [fresh100k, PortfolioManager.mkNew, oBuy300, oSellNeg, buyOk, afterBuy,
    quantityOf, PortfolioManager.execute_buy, PortfolioManager.execute_sell,
    PortfolioManager.resolve_buy_quantity, PortfolioManager.resolve_sell_quantity,
    explicitQuantity, pyInt, PortfolioManager.can_buy, PortfolioManager.can_sell,
    PortfolioManager.get_portfolio_state, buy_update_holdings, lookupH, updateH,
    eraseH, PortfolioManager.update_portfolio_percentages,
    TradingConfig.MAX_POSITION_SIZE, TradingConfig.MIN_POSITION_SIZE]

/-- C3 amended.  Non-negativity holds on the restricted reachable set the
code actually protects: starting from a fresh ledger with positive budget,
under arbitrary buy orders, price updates with positive prices, and sell
orders whose explicit quantity and percentage (when supplied) are
nonnegative, every reachable state has `availableCash ≥ 0` and every
stored position has `quantity > 0` (so a position whose quantity reaches
exactly 0 via a sell is removed and no stored quantity is ever ≤ 0); sell
orders with negative explicit quantity or percentage are not rejected by
the code and can drive the cash negative. -/
theorem C3_nonneg_amended (b : ℚ) (s : PortfolioManager) (hb : 0 < b)
    (h : ReachableSafe b s) : NonNegInv s := by
  induction h with
  | init =>
    refine ⟨hb.le, ?_⟩
    intro kh hm
    simp [PortfolioManager.mkNew] at hm
  | price s sym p _ hp ih => exact price_step_inv s sym p hp ih
  | buy s o m s' _ hb2 ih => exact buy_step_inv s o m s' ih hb2
  | sell s o m s' _ hpc hqt hb2 ih => exact sell_step_inv s o m s' ih hpc hqt hb2

/-- C4 counterexample.  `can_buy` does not check price positivity at all
(on a fresh 100000 ledger, `can_buy("A", 1, -1)` is rejected by the
minimum-size check with `PositionTooSmall`, not by any invalid-price
check), and it is not mutation-free: on a state whose cached
`total_pnl_percentage` is stale (77), `can_buy` rewrites it to the
recomputed value (0). -/
theorem C4_can_buy_counterexample :
    fresh100k.can_buy "A" 1 (-1) = some (false, Msg.positionTooSmall, fresh100k) ∧
    (canBuyState c4stale "A" 10 100).total_pnl_percentage = 0 ∧
    c4stale.total_pnl_percentage = 77 := by
  norm_num [fresh100k, PortfolioManager.mkNew, c4stale, canBuyState,
    PortfolioManager.can_buy, PortfolioManager.get_portfolio_state,
    TradingConfig.MAX_POSITION_SIZE, TradingConfig.MIN_POSITION_SIZE]

/-- C4 amended.  `can_buy` checks, in order: affordability
(`quantity*price ≤ availableCash`, else `InsufficientCash`), then the
position-size bounds against the current total value (`PositionTooLarge`
above 30%, `PositionTooSmall` below 5%); there is no price-positivity
check inside `can_buy` (price is validated by `execute_buy`/`execute_sell`
before `can_buy` runs), and `can_buy` never changes `availableCash`,
`positions`, `realizedPnL` or the trade history (it may rewrite only the
cached `total_pnl_percentage`).  On a fresh ledger with budget 100000 a
candidate buy passes exactly when its cost lies in `[5000, 30000]`; a buy
costing exactly 40000 is rejected `PositionTooLarge` and one costing
exactly 3000 is rejected `PositionTooSmall`. -/
theorem C4_can_buy_amended :
    (∀ (s : PortfolioManager) (sym : String) (q : Int) (p : ℚ),
      s.available_cash < (q : ℚ) * p →
      s.can_buy sym q p = some (false, Msg.insufficientCash, s)) ∧
    (∀ (s : PortfolioManager) (sym : String) (q : Int) (p : ℚ)
        (r : Bool × Msg × PortfolioManager), s.can_buy sym q p = some r →
      r.2.2.available_cash = s.available_cash ∧ r.2.2.holdings = s.holdings ∧
      r.2.2.total_pnl = s.total_pnl ∧ r.2.2.trade_history = s.trade_history) ∧
    (∀ (q : Int) (p : ℚ),
      fresh100k.can_buy "A" q p = some (true, Msg.ok, fresh100k) ↔
        5000 ≤ (q : ℚ) * p ∧ (q : ℚ) * p ≤ 30000) ∧
    fresh100k.can_buy "A" 400 100 = some (false, Msg.positionTooLarge, fresh100k) ∧
    fresh100k.can_buy "A" 30 100 = some (false, Msg.positionTooSmall, fresh100k) := by
  refine ⟨?_, ?_, ?_, ?_, ?_⟩
  · intro s sym q p hlt
    simp [PortfolioManager.can_buy, hlt]
  · intro s sym q p r h
    rcases can_buy_some_state s sym q p r h with he | he <;> rw [he]
    · exact ⟨rfl, rfl, rfl, rfl⟩
    · exact ⟨gps_snd_cash s, gps_snd_holdings s, gps_snd_pnl s, gps_snd_history s⟩
  · intro q p
    simp only [PortfolioManager.can_buy, PortfolioManager.get_portfolio_state,
      fresh100k, PortfolioManager.mkNew, TradingConfig.MAX_POSITION_SIZE,
      TradingConfig.MIN_POSITION_SIZE]
    norm_num
    constructor
    · intro h
      split_ifs at h with h1 h2 h3
      · exact absurd h (by simp)
      · exact absurd h (by simp)
      · exact absurd h (by simp)
      · constructor
        · push_neg at h3
          linarith
        · push_neg at h2
          linarith
    · rintro ⟨hlo, hhi⟩
      rw [if_neg (by linarith), if_neg (by linarith), if_neg (by linarith)]
  · norm_num [fresh100k, PortfolioManager.mkNew, PortfolioManager.can_buy,
      PortfolioManager.get_portfolio_state, TradingConfig.MAX_POSITION_SIZE,
      TradingConfig.MIN_POSITION_SIZE]
  · norm_num [fresh100k, PortfolioManager.mkNew, PortfolioManager.can_buy,
      PortfolioManager.get_portfolio_state, TradingConfig.MAX_POSITION_SIZE,
      TradingConfig.MIN_POSITION_SIZE]

/-- Witness for C4 (amended): on a fresh 100000 ledger a buy costing
200000 is rejected `InsufficientCash`, and a buy of 100 shares at 100
(cost 10000) passes the check. -/
theorem C4_can_buy_amended_witness :
    fresh100k.can_buy "A" 2000 100 = some (false, Msg.insufficientCash, fresh100k) ∧
    (fresh100k.can_buy "A" 100 100 = some (true, Msg.ok, fresh100k) ↔
      5000 ≤ ((100 : Int) : ℚ) * 100 ∧ ((100 : Int) : ℚ) * 100 ≤ 30000) :=
  ⟨C4_can_buy_amended.1 fresh100k "A" 2000 100
      (by norm_num [fresh100k, PortfolioManager.mkNew]),
   C4_can_buy_amended.2.2.1 100 100⟩

/-- C5 counterexample.  Three BUY votes at confidence 60 under the buy
threshold 70 do NOT combine to HOLD: the 1.2 buy-signal weighting lifts
the weighted average confidence to 72 ≥ 70, so the final action is BUY. -/
theorem C5_gating_counterexample :
    finalActionOf
      (MainAgent.make_final_decision "X" 100 [vBuy60, vBuy60, vBuy60] 100000 100000)
      = some ActionType.BUY := by
  norm_num [finalActionOf, MainAgent.make_final_decision, vBuy60,
    MainAgent.isBuyVote, MainAgent.isSellVote, MainAgent.voteWeight,
    MainAgent.calculate_position_size, MainAgent.pyOrTen,
    MainAgent.determine_risk_level, MainAgent.calculate_risk_levels,
    MainAgent.determine_next_interval, List.countP, List.countP.go,
    List.cons_ne_nil, ne_eq,
    TradingConfig.BUY_CONFIDENCE_THRESHOLD, TradingConfig.SELL_CONFIDENCE_THRESHOLD,
    TradingConfig.MIN_POSITION_SIZE, TradingConfig.MAX_POSITION_SIZE,
    TradingConfig.STOP_LOSS_PERCENTAGE, TradingConfig.TAKE_PROFIT_PERCENTAGE]

/-- C5 amended.  Three BUY votes at confidence 60 combine to BUY (the 1.2
weighting yields weighted average 72 ≥ 70); the threshold gate produces
HOLD for a majority-buy vote set only when the weighted average stays
below 70, e.g. three BUY votes at confidence 55 (weighted average 66)
combine to HOLD.  Stated for every symbol, price and portfolio-state
dictionary whose `total_value` is nonzero. -/
theorem C5_gating_amended (sym : String) (price cash tv : ℚ) (htv : tv ≠ 0) :
    finalActionOf
      (MainAgent.make_final_decision sym price [vBuy60, vBuy60, vBuy60] cash tv)
      = some ActionType.BUY ∧
    finalActionOf
      (MainAgent.make_final_decision sym price [vBuy55, vBuy55, vBuy55] cash tv)
      = some ActionType.HOLD := by
  obtain ⟨v1, hv1⟩ := calc_pos_size_isSome [vBuy60, vBuy60, vBuy60] cash tv htv
  obtain ⟨v2, hv2⟩ := calc_pos_size_isSome [vBuy55, vBuy55, vBuy55] cash tv htv
  constructor
  · simp only [MainAgent.make_final_decision, hv1]
    norm_num [finalActionOf, vBuy60, MainAgent.isBuyVote, MainAgent.isSellVote,
      MainAgent.voteWeight, List.countP, List.countP.go, List.cons_ne_nil, ne_eq,
      TradingConfig.BUY_CONFIDENCE_THRESHOLD, TradingConfig.SELL_CONFIDENCE_THRESHOLD]
  · simp only [MainAgent.make_final_decision, hv2]
    norm_num [finalActionOf, vBuy55, MainAgent.isBuyVote, MainAgent.isSellVote,
      MainAgent.voteWeight, List.countP, List.countP.go, List.cons_ne_nil, ne_eq,
      TradingConfig.BUY_CONFIDENCE_THRESHOLD, TradingConfig.SELL_CONFIDENCE_THRESHOLD]

/-- Witness for C5 (amended) at a concrete portfolio state
(cash 100000, total value 100000). -/
theorem C5_gating_amended_witness :
    finalActionOf
      (MainAgent.make_final_decision "X" 100 [vBuy60, vBuy60, vBuy60] 100000 100000)
      = some ActionType.BUY ∧
    finalActionOf
      (MainAgent.make_final_decision "X" 100 [vBuy55, vBuy55, vBuy55] 100000 100000)
      = some ActionType.HOLD :=
  C5_gating_amended "X" 100 100000 100000 (by norm_num)

/-- C6 counterexample.  Quantity resolution does not work as claimed:
(a) when both `quantity` (60) and `percentage` (20) are supplied, the
percentage wins — the buy on a fresh 100000 ledger at price 100 acquires
200 shares, not 60; (b) a buy percentage resolving to 0 shares fails with
`PositionTooSmall` (via the size check), not `MissingQuantity`; (c) a sell
percentage resolving to 0 shares does not fail at all — it succeeds as a
no-op sale of 0 shares. -/
theorem C6_resolution_counterexample :
    buyOk fresh100k oBuyBoth = true ∧
    quantityOf (afterBuy fresh100k oBuyBoth) "A" = 200 ∧
    fresh100k.execute_buy oBuyTinyPct
      = some (false, Msg.positionTooSmall, fresh100k) ∧
    ((afterBuy fresh100k oBuy300).execute_sell oSellTinyPct).1 = true ∧
    quantityOf ((afterBuy fresh100k oBuy300).execute_sell oSellTinyPct).2.2 "A"
      = 300 := by
  norm_num [fresh100k, PortfolioManager.mkNew, oBuyBoth, oBuyTinyPct, oBuy300,
    oSellTinyPct, buyOk, afterBuy, quantityOf, PortfolioManager.execute_buy,
    PortfolioManager.execute_sell, PortfolioManager.resolve_buy_quantity,
    PortfolioManager.resolve_sell_quantity, explicitQuantity, pyInt,
    PortfolioManager.can_buy, PortfolioManager.can_sell,
    PortfolioManager.get_portfolio_state, buy_update_holdings, lookupH, updateH,
    eraseH, PortfolioManager.update_portfolio_percentages,
    TradingConfig.MAX_POSITION_SIZE, TradingConfig.MIN_POSITION_SIZE]

/-- C6 amended.  Order-quantity resolution as the code implements it:
a nonzero `percentage` always wins over an explicit `quantity`
(buys resolve `int(availableCash*percentage/100/price)` shares, sells
`int(heldQuantity*percentage/100)`); only when `percentage` is absent or
zero is a nonzero explicit `quantity` used; when neither a nonzero
percentage nor a nonzero quantity is supplied, the call fails with
`MissingQuantity` ("Must specify either quantity or percentage") and
changes no state.  A resolved share count of 0 does not produce
`MissingQuantity`. -/
theorem C6_resolution_amended :
    (∀ (s : PortfolioManager) (o : TradeRequest) (pc : ℚ) (p : ℚ),
      o.percentage = some pc → pc ≠ 0 →
      s.resolve_buy_quantity o p
        = some (pyInt (s.available_cash * (pc / 100) / p))) ∧
    (∀ (holding : Holding) (o : TradeRequest) (pc : ℚ),
      o.percentage = some pc → pc ≠ 0 →
      PortfolioManager.resolve_sell_quantity holding o
        = some (pyInt ((holding.quantity : ℚ) * (pc / 100)))) ∧
    (∀ (s : PortfolioManager) (o : TradeRequest),
      o.action = ActionType.BUY → 0 < o.price.getD 0 →
      (o.percentage = none ∨ o.percentage = some 0) →
      (o.quantity = none ∨ o.quantity = some 0) →
      s.execute_buy o = some (false, Msg.mustSpecifyQuantityOrPercentage, s)) ∧
    (∀ (s : PortfolioManager) (o : TradeRequest) (holding : Holding),
      o.action = ActionType.SELL → 0 < o.price.getD 0 →
      lookupH s.holdings o.symbol = some holding →
      (o.percentage = none ∨ o.percentage = some 0) →
      (o.quantity = none ∨ o.quantity = some 0) →
      s.execute_sell o = (false, Msg.mustSpecifyQuantityOrPercentage, s)) := by
  have hexp : ∀ (o : TradeRequest), (o.quantity = none ∨ o.quantity = some 0) →
      explicitQuantity o = none := by
    intro o hq
    rcases hq with hq | hq <;> simp [explicitQuantity, hq]
  have hres : ∀ (s : PortfolioManager) (o : TradeRequest) (p : ℚ),
      (o.percentage = none ∨ o.percentage = some 0) →
      (o.quantity = none ∨ o.quantity = some 0) →
      s.resolve_buy_quantity o p = none := by
    intro s o p hp hq
    rcases hp with hp | hp <;>
      simp [PortfolioManager.resolve_buy_quantity, hp, hexp o hq]
  have hress : ∀ (holding : Holding) (o : TradeRequest),
      (o.percentage = none ∨ o.percentage = some 0) →
      (o.quantity = none ∨ o.quantity = some 0) →
      PortfolioManager.resolve_sell_quantity holding o = none := by
    intro holding o hp hq
    rcases hp with hp | hp <;>
      simp [PortfolioManager.resolve_sell_quantity, hp, hexp o hq]
  refine ⟨?_, ?_, ?_, ?_⟩
  · intro s o pc p hpc hne
    simp [PortfolioManager.resolve_buy_quantity, hpc, hne]
  · intro holding o pc hpc hne
    simp [PortfolioManager.resolve_sell_quantity, hpc, hne]
  · intro s o ha hp hpcs hqs
    simp [PortfolioManager.execute_buy, ha, not_le.mpr hp, hres s o _ hpcs hqs]
  · intro s o holding ha hp hlk hpcs hqs
    simp [PortfolioManager.execute_sell, ha, not_le.mpr hp, hlk,
      hress holding o hpcs hqs]

/-- Witness for C6 (amended): on a fresh 100000 ledger, the order carrying
both quantity 60 and percentage 20 at price 100 resolves to
`int(100000*20/100/100) = 200` shares, and the buy/sell orders carrying
neither quantity nor percentage fail with the missing-quantity message
leaving the state unchanged. -/
theorem C6_resolution_amended_witness :
    fresh100k.resolve_buy_quantity oBuyBoth 100
      = some (pyInt (fresh100k.available_cash * (20 / 100) / 100)) ∧
    fresh100k.execute_buy oBuyNoQty
      = some (false, Msg.mustSpecifyQuantityOrPercentage, fresh100k) ∧
    ((afterBuy fresh100k oBuy300).execute_sell oSellNoQty).1 = false :=
  ⟨C6_resolution_amended.1 fresh100k oBuyBoth 20 100 rfl (by norm_num),
   C6_resolution_amended.2.2.1 fresh100k oBuyNoQty rfl (by norm_num [oBuyNoQty])
     (Or.inl rfl) (Or.inl rfl),
   by
    rw [C6_resolution_amended.2.2.2 (afterBuy fresh100k oBuy300) oSellNoQty
      ⟨"A", 300, 100, 100, 30000, 0, 0, 30⟩ rfl (by norm_num [oSellNoQty])
      (by norm_num [fresh100k, PortfolioManager.mkNew, oBuy300, afterBuy,
        PortfolioManager.execute_buy, PortfolioManager.resolve_buy_quantity,
        explicitQuantity, pyInt, PortfolioManager.can_buy,
        PortfolioManager.get_portfolio_state, buy_update_holdings, lookupH, updateH,
        PortfolioManager.update_portfolio_percentages, oSellNoQty,
        TradingConfig.MAX_POSITION_SIZE, TradingConfig.MIN_POSITION_SIZE])
      (Or.inl rfl) (Or.inl rfl)]⟩

/-- C7 counterexample.  `get_portfolio_state` does not return 0 for the
realized-PnL percentage when `initialBudget − availableCash ≤ 0`: in the
reachable state `staleCacheState` (budget 100000, cash 120000, realized
PnL 20000) it returns the stale cached value 100.  The method is also not
side-effect free in general — it rewrites the cached field. -/
theorem C7_get_state_counterexample :
    staleCacheState.available_cash = 120000 ∧
    staleCacheState.initial_budget = 100000 ∧
    staleCacheState.total_pnl = 20000 ∧
    (staleCacheState.get_portfolio_state).1.total_pnl_percentage = 100 := by
  norm_num [staleCacheState, fresh100k, PortfolioManager.mkNew, oBuy10, oSell2,
    oSell8, afterBuy, afterSell, PortfolioManager.execute_buy,
    PortfolioManager.execute_sell, PortfolioManager.resolve_buy_quantity,
    PortfolioManager.resolve_sell_quantity, explicitQuantity, pyInt,
    PortfolioManager.can_buy, PortfolioManager.can_sell,
    PortfolioManager.get_portfolio_state, buy_update_holdings, lookupH, updateH,
    eraseH, PortfolioManager.update_portfolio_percentages,
    TradingConfig.MAX_POSITION_SIZE, TradingConfig.MIN_POSITION_SIZE]

/-- C7 amended.  `get_portfolio_state` returns
`realizedPnL / (initialBudget − availableCash) * 100` when the denominator
is positive, and otherwise returns the cached `total_pnl_percentage`
(initially 0, but possibly a stale nonzero value); it writes that cached
field and nothing else, and it is idempotent — two consecutive calls with
no intervening mutation return identical values. -/
theorem C7_get_state_amended (s : PortfolioManager) :
    (0 < s.initial_budget - s.available_cash →
      (s.get_portfolio_state).1.total_pnl_percentage =
        s.total_pnl / (s.initial_budget - s.available_cash) * 100) ∧
    (s.initial_budget - s.available_cash ≤ 0 →
      (s.get_portfolio_state).1.total_pnl_percentage = s.total_pnl_percentage) ∧
    (s.get_portfolio_state).2.available_cash = s.available_cash ∧
    (s.get_portfolio_state).2.holdings = s.holdings ∧
    (s.get_portfolio_state).2.total_pnl = s.total_pnl ∧
    (s.get_portfolio_state).2.trade_history = s.trade_history ∧
    (s.get_portfolio_state).2.initial_budget = s.initial_budget ∧
    ((s.get_portfolio_state).2).get_portfolio_state = s.get_portfolio_state := by
  refine ⟨?_, ?_, gps_snd_cash s, gps_snd_holdings s, gps_snd_pnl s,
    gps_snd_history s, gps_snd_budget s, gps_idem s⟩
  · intro h
    simp [PortfolioManager.get_portfolio_state, h]
  · intro h
    simp [PortfolioManager.get_portfolio_state, not_lt.mpr h]

/-- Witness for C7 (amended): the positive-denominator branch on `c4stale`
(invested 50000) and the cached-value branch on `staleCacheState`
(invested −20000). -/
theorem C7_get_state_amended_witness :
    (c4stale.get_portfolio_state).1.total_pnl_percentage =
      c4stale.total_pnl / (c4stale.initial_budget - c4stale.available_cash) * 100 ∧
    (staleCacheState.get_portfolio_state).1.total_pnl_percentage =
      staleCacheState.total_pnl_percentage :=
  ⟨(C7_get_state_amended c4stale).1 (by norm_num [c4stale]),
   (C7_get_state_amended staleCacheState).2.1
     (by norm_num [staleCacheState, fresh100k, PortfolioManager.mkNew, oBuy10,
       oSell2, oSell8, afterBuy, afterSell, PortfolioManager.execute_buy,
       PortfolioManager.execute_sell, PortfolioManager.resolve_buy_quantity,
       PortfolioManager.resolve_sell_quantity, explicitQuantity, pyInt,
       PortfolioManager.can_buy, PortfolioManager.can_sell,
       PortfolioManager.get_portfolio_state, buy_update_holdings, lookupH, updateH,
       eraseH, PortfolioManager.update_portfolio_percentages,
       TradingConfig.MAX_POSITION_SIZE, TradingConfig.MIN_POSITION_SIZE])⟩

/-- C8 counterexample.  An empty vote list does yield HOLD, confidence 0
and MEDIUM risk, but the stop-loss and take-profit are NOT absent: at
current price 100 the decision carries `stop_loss = 95` and
`take_profit = 115` (the MEDIUM-risk levels), not null. -/
theorem C8_empty_votes_counterexample :
    MainAgent.make_final_decision "X" 100 [] 100000 100000 =
      some { final_action := ActionType.HOLD, symbol := "X", confidence := 0,
             risk_assessment := RiskLevel.MEDIUM, position_size := 10,
             stop_loss := some 95, take_profit := some 115,
             next_interval := "1hour" } := by
  norm_num [MainAgent.make_final_decision, MainAgent.isBuyVote,
    MainAgent.isSellVote, MainAgent.voteWeight, MainAgent.calculate_position_size,
    MainAgent.pyOrTen, MainAgent.determine_risk_level,
    MainAgent.calculate_risk_levels, MainAgent.determine_next_interval,
    List.countP, List.countP.go,
    TradingConfig.BUY_CONFIDENCE_THRESHOLD, TradingConfig.SELL_CONFIDENCE_THRESHOLD,
    TradingConfig.MIN_POSITION_SIZE, TradingConfig.MAX_POSITION_SIZE,
    TradingConfig.STOP_LOSS_PERCENTAGE, TradingConfig.TAKE_PROFIT_PERCENTAGE]

/-- C8 amended.  The empty vote list is the designated degenerate case,
returned normally (not an error): for every symbol, current price and
portfolio-state dictionary it yields final action HOLD, confidence 0,
MEDIUM risk, default position size 10, and the MEDIUM-risk levels
`stop_loss = price*(1 − 0.05)` and `take_profit = price*(1 + 0.15)` —
concrete values, not null. -/
theorem C8_empty_votes_amended (sym : String) (price cash tv : ℚ) :
    MainAgent.make_final_decision sym price [] cash tv =
      some { final_action := ActionType.HOLD, symbol := sym, confidence := 0,
             risk_assessment := RiskLevel.MEDIUM, position_size := 10,
             stop_loss := some (price * (1 - 1/20)),
             take_profit := some (price * (1 + 3/20)),
             next_interval := "1hour" } := by
  norm_num [MainAgent.make_final_decision, MainAgent.isBuyVote,
    MainAgent.isSellVote, MainAgent.voteWeight, MainAgent.calculate_position_size,
    MainAgent.pyOrTen, MainAgent.determine_risk_level,
    MainAgent.calculate_risk_levels, MainAgent.determine_next_interval,
    List.countP, List.countP.go,
    TradingConfig.BUY_CONFIDENCE_THRESHOLD, TradingConfig.SELL_CONFIDENCE_THRESHOLD,
    TradingConfig.MIN_POSITION_SIZE, TradingConfig.MAX_POSITION_SIZE,
    TradingConfig.STOP_LOSS_PERCENTAGE, TradingConfig.TAKE_PROFIT_PERCENTAGE]

/-- Witness for C8 (amended) at symbol X, price 200, portfolio state
(50000, 80000): the stop and target are 190 and 230. -/
theorem C8_empty_votes_amended_witness :
    MainAgent.make_final_decision "X" 200 [] 50000 80000 =
      some { final_action := ActionType.HOLD, symbol := "X", confidence := 0,
             risk_assessment := RiskLevel.MEDIUM, position_size := 10,
             stop_loss := some (200 * (1 - 1/20)),
             take_profit := some (200 * (1 + 3/20)),
             next_interval := "1hour" } :=
  C8_empty_votes_amended "X" 200 50000 80000

/-- C9 counterexample.  `update_holding_price` performs no price
validation: called with price −1 on a held symbol it does not fail — it
stores −1 as the current price of the holding (the state changes, and no
error of any kind is signalled; the method has no error channel at all). -/
theorem C9_update_price_counterexample :
    currentPriceOf ((afterBuy fresh100k oBuy300).update_holding_price "A" (-1)) "A"
      = -1 ∧
    currentPriceOf (afterBuy fresh100k oBuy300) "A" = 100 := by
  norm_num [currentPriceOf, afterBuy, fresh100k, PortfolioManager.mkNew, oBuy300,
    PortfolioManager.execute_buy, PortfolioManager.update_holding_price,
    PortfolioManager.resolve_buy_quantity, explicitQuantity, pyInt,
    PortfolioManager.can_buy, PortfolioManager.get_portfolio_state,
    buy_update_holdings, lookupH, updateH,
    PortfolioManager.update_portfolio_percentages,
    TradingConfig.MAX_POSITION_SIZE, TradingConfig.MIN_POSITION_SIZE]

/-- C9 amended.  `update_holding_price` never signals an error and accepts
any price: for a symbol with no position it is a silent no-op (for every
price, positive or not), and for a held symbol it stores the given price
into the field `current_price` of the holding (again for every price — there is no
`InvalidPrice` rejection of `price ≤ 0`). -/
theorem C9_update_price_amended (s : PortfolioManager) (sym : String) (p : ℚ) :
    (lookupH s.holdings sym = none → s.update_holding_price sym p = s) ∧
    (∀ h0 : Holding, lookupH s.holdings sym = some h0 →
      currentPriceOf (s.update_holding_price sym p) sym = p) := by
  constructor
  · intro h
    simp [PortfolioManager.update_holding_price, h]
  · intro h0 hlk
    simp only [PortfolioManager.update_holding_price, hlk]
    rw [currentPriceOf_eq _ sym _ (lookupH_updateH_self _ _ _ _
      (by rw [gps_snd_holdings]; exact lookupH_updateH_self _ _ h0 _ hlk))]
    repeat' split
    all_goals rfl

/-- Witness for C9 (amended): updating an unheld symbol on a fresh ledger
is a no-op, and updating the held symbol A to price 250 stores 250. -/
theorem C9_update_price_amended_witness :
    (fresh100k.update_holding_price "A" 50 = fresh100k) ∧
    currentPriceOf ((afterBuy fresh100k oBuy300).update_holding_price "A" 250) "A"
      = 250 :=
  ⟨(C9_update_price_amended fresh100k "A" 50).1 rfl,
   (C9_update_price_amended (afterBuy fresh100k oBuy300) "A" 250).2
     ⟨"A", 300, 100, 100, 30000, 0, 0, 30⟩
     (by norm_num [fresh100k, PortfolioManager.mkNew, oBuy300, afterBuy,
       PortfolioManager.execute_buy, PortfolioManager.resolve_buy_quantity,
       explicitQuantity, pyInt, PortfolioManager.can_buy,
       PortfolioManager.get_portfolio_state, buy_update_holdings, lookupH, updateH,
       PortfolioManager.update_portfolio_percentages,
       TradingConfig.MAX_POSITION_SIZE, TradingConfig.MIN_POSITION_SIZE])⟩

/-- C10.  A mismatched action is a returned failure, not a fault: for
every ledger state, `execute_buy` on an order whose action is not BUY
returns `(False, "Invalid action for buy execution")` without raising
(`some`, never the fault value `none`) and with the state unchanged;
symmetrically for `execute_sell` on an order whose action is not SELL. -/
theorem C10_mismatched_action (s : PortfolioManager) (o o2 : TradeRequest)
    (hb : o.action ≠ ActionType.BUY) (hs : o2.action ≠ ActionType.SELL) :
    s.execute_buy o = some (false, Msg.invalidActionBuy, s) ∧
    s.execute_sell o2 = (false, Msg.invalidActionSell, s) := by
  constructor
  · simp [PortfolioManager.execute_buy, hb]
  · simp [PortfolioManager.execute_sell, hs]

/-- Witness for C10: a SELL-action order given to `execute_buy` and a
BUY-action order given to `execute_sell`, on a fresh 100000 ledger. -/
theorem C10_mismatched_action_witness :
    fresh100k.execute_buy oSellNeg = some (false, Msg.invalidActionBuy, fresh100k) ∧
    fresh100k.execute_sell oBuy300 = (false, Msg.invalidActionSell, fresh100k) :=
  C10_mismatched_action fresh100k oSellNeg oBuy300 (by decide) (by decide)

/-- Witness for C3 (amended) at a concrete reachable state: a fresh 100000
ledger after one successful buy of 300 shares at price 100. -/
theorem C3_nonneg_amended_witness : NonNegInv (afterBuy fresh100k oBuy300) :=
  C3_nonneg_amended 100000 (afterBuy fresh100k oBuy300) (by norm_num)
    (ReachableSafe.buy _ oBuy300 Msg.buySuccess _ ReachableSafe.init
      (by norm_num [fresh100k, afterBuy, PortfolioManager.mkNew, oBuy300,
        PortfolioManager.execute_buy, PortfolioManager.resolve_buy_quantity,
        explicitQuantity, pyInt, PortfolioManager.can_buy, PortfolioManager.can_sell,
        PortfolioManager.get_portfolio_state, buy_update_holdings, lookupH, updateH,
        eraseH, PortfolioManager.update_portfolio_percentages,
        TradingConfig.MAX_POSITION_SIZE, TradingConfig.MIN_POSITION_SIZE]))

end StockAnalyzer
